import Mathlib

/-
Verification development for `examples/tensor_flow/code/ptb_word_lm.py`, a PTB
word-level LSTM language-model script.  The Python functions are embedded
shallowly: TensorFlow session execution is abstracted by explicit oracles
(`sess`, `mstep`, `rand`), Python integer floor division and modulo are
modelled on `Int` with explicit `ZeroDivisionError`, and fallible code
returns `Except PyErr`.
-/

/-- Python exceptions that the embedded code can raise. -/
inductive PyErr where
  | zeroDivisionError
  | valueError
  | typeError
  | keyError
  | indexError
deriving DecidableEq

/-- Python `a // b` on integers: floor division, `ZeroDivisionError` when `b = 0`. -/
def pyFloorDiv (a b : ℤ) : Except PyErr ℤ :=
  if b = 0 then .error .zeroDivisionError else .ok (Int.fdiv a b)

/-- Python `a % b` on integers: floor-convention remainder, `ZeroDivisionError` when `b = 0`. -/
def pyMod (a b : ℤ) : Except PyErr ℤ :=
  if b = 0 then .error .zeroDivisionError else .ok (Int.fmod a b)

/-- Model of `os.path.join` for the relative literal second components used by the script
(`"word_to_id.json"`, `"id_to_word.json"`, `"ptb.ckpt"`). -/
def os_path_join (a b : String) : String :=
  if a = "" then b else if a.endsWith "/" then a ++ b else a ++ "/" ++ b

/-- Truthiness of a string-valued flag.  `none` models the unset default
(`None` for `data_path` / `model_path_prefix`, the literal `False` default of
`generate`); a supplied string is truthy exactly when it is nonempty. -/
def truthyFlag : Option String → Bool
  | none => false
  | some s => !(s == "")

/- Embedding of `run_epoch` (ptb_word_lm.py lines 263-295).

The TensorFlow session is abstracted by `sess : S → B → StepOut S`: given the
state fed into `m.initial_state` and the `(x, y)` minibatch fed into the
placeholders, it returns the fetched `cost`, `final_state` and `probs` matrix
(the `logits` fetch is bound but unused by `run_epoch`).  The minibatches
produced by `reader.ptb_iterator` are abstracted as the list `batches`. -/

/-- The values fetched by one `session.run` inside `run_epoch`. -/
structure StepOut (S : Type) where
  cost : ℚ
  state : S
  probs : List (List ℚ)

/-- The model attributes `run_epoch` reads: `m.batch_size`, `m.num_steps` and
the evaluated `m.initial_state`. -/
structure SessModel (S : Type) where
  batch_size : ℕ
  num_steps : ℕ
  initial_state : S

/-- The accumulator values of `run_epoch` when it leaves its loop:
`costs`, `iters` and `final_chosen_word` (`none` models the initial `""`). -/
structure EpochOut where
  costs : ℚ
  iters : ℕ
  final_chosen_word : Option ℕ
deriving DecidableEq

/-- Control flow out of one iteration of the `run_epoch` loop body. -/
inductive LoopCtl (S : Type) where
  | brk (out : EpochOut)
  | cont (costs : ℚ) (iters : ℕ) (st : S) (fcw : Option ℕ)

/-- Model of `np.argmax` over a vector: index of the first occurrence of the maximum
(`0` on the empty vector, which numpy would reject; callers guard emptiness). -/
def np_argmax (l : List ℚ) : ℕ :=
  (l.foldl
    (fun (acc : ℕ × ℕ × Option ℚ) v =>
      match acc with
      | (_, idx, none) => (idx, idx + 1, some v)
      | (best, idx, some bv) =>
          if bv < v then (idx, idx + 1, some v) else (best, idx + 1, some bv))
    (0, 0, none)).1

/-- Model of `np.argmax(probs, 1)` followed by `[-1]`: the argmax of the last row.
Raises `IndexError` on an empty matrix, as numpy indexing would. -/
def lastRowArgmax (probs : List (List ℚ)) : Except PyErr ℕ :=
  match probs.getLast? with
  | some row => .ok (np_argmax row)
  | none => .error .indexError

/-- Model of `epoch_size = ((len(data) // m.batch_size) - 1) // m.num_steps`
(ptb_word_lm.py line 265), with Python floor-division semantics. -/
def pyEpochSize (dataLen batchSize numSteps : ℕ) : Except PyErr ℤ := do
  let q ← pyFloorDiv (dataLen : ℤ) (batchSize : ℤ)
  pyFloorDiv (q - 1) (numSteps : ℤ)

/-- The `if verbose and step % (epoch_size // 10) == 10` branch (lines
282-288).  Evaluating the condition raises `ZeroDivisionError` when
`epoch_size // 10 == 0`; when taken, the branch's print evaluates
`np.exp(costs / iters)` (float division by zero when `iters = 0`) and
computes a discarded `chosen_word` (`IndexError` on an empty matrix). -/
def verboseCheck (epochSize : ℤ) (verbose : Bool) (step iters : ℕ)
    (probs : List (List ℚ)) : Except PyErr Unit :=
  if verbose then do
    let r ← pyMod (step : ℤ) (Int.fdiv epochSize 10)
    if r = 10 then do
      if iters = 0 then Except.error PyErr.zeroDivisionError else pure ()
      let _ ← lastRowArgmax probs
      pure ()
    else pure ()
  else pure ()

/-- One iteration of the `run_epoch` loop body (lines 274-293).  The body runs
the session, accumulates `costs` and `iters`, evaluates the verbose branch,
records `final_chosen_word`, and ends in the unconditional `break`. -/
def epochStep {B S : Type} (m : SessModel S) (sess : S → B → StepOut S)
    (epochSize : ℤ) (verbose : Bool) (step : ℕ) (b : B) (costs : ℚ) (iters : ℕ)
    (st : S) : Except PyErr (LoopCtl S) := do
  let out := sess st b
  let costs := costs + out.cost
  let iters := iters + m.num_steps
  verboseCheck epochSize verbose step iters out.probs
  let cw ← lastRowArgmax out.probs
  return LoopCtl.brk ⟨costs, iters, some cw⟩

/-- The `for step, (x, y) in enumerate(...)` loop of `run_epoch`. -/
def runLoop {B S : Type} (m : SessModel S) (sess : S → B → StepOut S)
    (epochSize : ℤ) (verbose : Bool) :
    ℕ → List B → ℚ → ℕ → S → Option ℕ → Except PyErr EpochOut
  | _, [], costs, iters, _, fcw => .ok ⟨costs, iters, fcw⟩
  | step, b :: rest, costs, iters, st, fcw => do
    match ← epochStep m sess epochSize verbose step b costs iters st with
    | .brk out => Except.ok out
    | .cont costs' iters' st' fcw' =>
        runLoop m sess epochSize verbose (step + 1) rest costs' iters' st' fcw'

/-- Model of `run_epoch(session, m, data, eval_op, verbose)` up to the final
`np.exp(costs / iters)`: returns the accumulated `costs`, `iters` and
`final_chosen_word` (raising `ZeroDivisionError` where the float division
`costs / iters` with `iters = 0` would). -/
def run_epoch {B S : Type} (m : SessModel S) (sess : S → B → StepOut S)
    (dataLen : ℕ) (batches : List B) (verbose : Bool) : Except PyErr EpochOut := do
  let epochSize ← pyEpochSize dataLen m.batch_size m.num_steps
  let res ← runLoop m sess epochSize verbose 0 batches 0 0 m.initial_state none
  if res.iters = 0 then Except.error PyErr.zeroDivisionError
  else return res

/-- Model of `np.exp` on an exact rational argument. -/
noncomputable def np_exp (x : ℚ) : ℝ := Real.exp x

/-- The pair actually returned by `run_epoch`:
`(np.exp(costs / iters), final_chosen_word)`. -/
noncomputable def run_epoch_ret {B S : Type} (m : SessModel S)
    (sess : S → B → StepOut S) (dataLen : ℕ) (batches : List B)
    (verbose : Bool) : Except PyErr (ℝ × Option ℕ) :=
  (run_epoch m sess dataLen batches verbose).map
    (fun r => (np_exp (r.costs / (r.iters : ℚ)), r.final_chosen_word))

/-- The accumulation claim C1 describes (and the upstream tutorial performs):
sum the per-batch cost over every minibatch of the data, threading the state,
and count `m.num_steps` iterations per minibatch; returns `(costs, iters)`. -/
def run_epoch_claimed {B S : Type} (m : SessModel S) (sess : S → B → StepOut S)
    (batches : List B) : ℚ × ℕ :=
  let z := batches.foldl
    (fun (acc : ℚ × ℕ × S) b =>
      let out := sess acc.2.2 b
      (acc.1 + out.cost, acc.2.1 + m.num_steps, out.state))
    (0, 0, m.initial_state)
  (z.1, z.2.1)

/- Embedding of the configurations (ptb_word_lm.py lines 199-260) and of `get_config` (298-308). -/

/-- The hyperparameter fields shared by the four config classes. -/
structure Config where
  init_scale : ℚ
  learning_rate : ℚ
  max_grad_norm : ℚ
  num_layers : ℕ
  num_steps : ℕ
  hidden_size : ℕ
  max_epoch : ℕ
  max_max_epoch : ℕ
  keep_prob : ℚ
  lr_decay : ℚ
  batch_size : ℕ
  vocab_size : ℕ
deriving DecidableEq

/-- Values of `SmallConfig`. -/
def smallConfig : Config :=
  ⟨1/10, 1, 5, 2, 20, 200, 4, 13, 1, 1/2, 20, 10002⟩

/-- Values of `MediumConfig`. -/
def mediumConfig : Config :=
  ⟨1/20, 1, 5, 2, 35, 650, 6, 39, 1/2, 4/5, 20, 10002⟩

/-- Values of `LargeConfig` (its `lr_decay = 1 / 1.15 = 20/23`). -/
def largeConfig : Config :=
  ⟨1/25, 1, 10, 2, 35, 1500, 14, 55, 7/20, 20/23, 20, 10002⟩

/-- Values of `TestConfig`. -/
def testConfig : Config :=
  ⟨1/10, 1, 1, 1, 2, 2, 1, 1, 1, 1/2, 20, 10002⟩

/-- Model of `get_config()`: dispatch on `FLAGS.model`, `ValueError` otherwise. -/
def get_config (model : String) : Except PyErr Config :=
  if model = "small" then .ok smallConfig
  else if model = "medium" then .ok mediumConfig
  else if model = "large" then .ok largeConfig
  else if model = "test" then .ok testConfig
  else .error .valueError

/- Embedding of the flags and of `main` (ptb_word_lm.py lines 73-79 and 311-322). -/

/-- The four command-line flags.  All are string flags; `none` models an
unset flag (`None` default, or the literal `False` default of `generate`). -/
structure Flags where
  model : String
  data_path : Option String
  generate_flag : Option String
  model_path_pfx : Option String
deriving DecidableEq

/-- Model of `os.path.join(FLAGS.model_path_prefix, name)`: raises `TypeError` when the
flag is unset (`None`), as `os.path.join(None, ...)` does. -/
def pyModelPath (fl : Flags) (name : String) : Except PyErr String :=
  match fl.model_path_pfx with
  | some p => .ok (os_path_join p name)
  | none => .error .typeError

/-- What `main` dispatches to: a call to `train()`, or a call to
`generate(word_to_id, id_to_word)` after loading the two vocabulary JSON
files from the recorded paths. -/
inductive MainAction where
  | trainCall
  | generateCall (wordToIdPath idToWordPath : String)
deriving DecidableEq

/-- Model of `main(_)` (lines 311-322), named `ptb_main` since `main` is reserved in Lean. -/
def ptb_main (fl : Flags) : Except PyErr MainAction :=
  if !truthyFlag fl.data_path && !truthyFlag fl.generate_flag then
    .error .valueError
  else if !truthyFlag fl.generate_flag then
    .ok .trainCall
  else do
    let p1 ← pyModelPath fl "word_to_id.json"
    let p2 ← pyModelPath fl "id_to_word.json"
    .ok (.generateCall p1 p2)

/- Embedding of `train` (ptb_word_lm.py lines 324-366).

`train` is almost entirely effects on the session; it is embedded as the
sequence of externally visible events it performs, in program order. -/

/-- Datasets a `run_epoch` call can be given. -/
inductive DatasetId where
  | trainD
  | validD
  | testD
deriving DecidableEq

/-- The `eval_op` argument of a `run_epoch` call. -/
inductive OpId where
  | trainOp
  | noOp
deriving DecidableEq

/-- The externally visible events of `train`, in program order. -/
inductive TrainEvent where
  | loadData (path : Option String)
  | dumpJson (path : String)
  | assignLR (lr : ℚ)
  | runEpochEv (data : DatasetId) (op : OpId) (verbose : Bool)
  | saveCheckpoint (path : String)
deriving DecidableEq

/-- The body of the `for i in range(config.max_max_epoch)` loop of `train`
(lines 351-361): assign the decayed learning rate, run a verbose training
epoch with `m.train_op`, run a validation epoch with `tf.no_op()`, and save a
checkpoint to `os.path.join(FLAGS.model_path_prefix, "ptb.ckpt")`. -/
def trainEpochBody (c : Config) (p : String) (i : ℕ) : List TrainEvent :=
  let lr_decay := c.lr_decay ^ (max ((i : ℤ) - (c.max_epoch : ℤ)) 0).toNat
  [TrainEvent.assignLR (c.learning_rate * lr_decay),
   TrainEvent.runEpochEv DatasetId.trainD OpId.trainOp true,
   TrainEvent.runEpochEv DatasetId.validD OpId.noOp false,
   TrainEvent.saveCheckpoint (os_path_join p "ptb.ckpt")]

/-- Model of `train()` as its event trace: load the raw PTB data, dump the two
vocabulary JSON files, run the epoch loop, and finally run one evaluation
epoch on the test data. -/
def train (fl : Flags) : Except PyErr (List TrainEvent) := do
  let c ← get_config fl.model
  let _evalc ← get_config fl.model
  let pWordToId ← pyModelPath fl "word_to_id.json"
  let pIdToWord ← pyModelPath fl "id_to_word.json"
  let p ← (match fl.model_path_pfx with
    | some p => Except.ok p
    | none => Except.error PyErr.typeError)
  let pre := [TrainEvent.loadData fl.data_path,
              TrainEvent.dumpJson pWordToId,
              TrainEvent.dumpJson pIdToWord]
  let evs := (List.range c.max_max_epoch).foldl
    (fun acc i => acc ++ trainEpochBody c p i) pre
  pure (evs ++ [TrainEvent.runEpochEv DatasetId.testD OpId.noOp false])

/-- Recognises the final test-data evaluation event. -/
def isTestEval : TrainEvent → Bool
  | .runEpochEv .testD _ _ => true
  | _ => false

/-- Recognises a checkpoint-save event. -/
def isSaveCkpt : TrainEvent → Bool
  | .saveCheckpoint _ => true
  | _ => false

/- Embedding of the `PTBModel.__init__` graph construction (ptb_word_lm.py lines 85-153).

The constructor only builds a TensorFlow graph; it is embedded as a record of
the graph structure it creates: the recurrent cell stack, the unrolled time
steps, and (in training mode) the learning-rate variable and training op. -/

/-- A recurrent cell as constructed by the script: a `BasicLSTMCell`, possibly
wrapped in a `DropoutWrapper`. -/
inductive CellDesc where
  | basicLSTM (numUnits : ℕ) (forgetBias : ℚ)
  | dropoutWrap (outputKeepProb : ℚ) (inner : CellDesc)
deriving DecidableEq

/-- The number of units of the underlying LSTM cell. -/
def CellDesc.units : CellDesc → ℕ
  | .basicLSTM u _ => u
  | .dropoutWrap _ inner => inner.units

/-- Whether the cell is wrapped in dropout. -/
def CellDesc.hasDropout : CellDesc → Bool
  | .dropoutWrap _ _ => true
  | .basicLSTM _ _ => false

/-- The initial state of the unrolled network: `cell.zero_state(batch_size)`. -/
inductive StateDesc where
  | zeroState (batchSize : ℕ)
deriving DecidableEq

/-- One unrolled time step: its index and whether
`tf.get_variable_scope().reuse_variables()` was called before it. -/
structure UnrollStep where
  timeStep : ℕ
  reuseVars : Bool
deriving DecidableEq

/-- The optimizer used by the training op. -/
inductive OptKind where
  | gradientDescent
deriving DecidableEq

/-- The training op: `optimizer.apply_gradients(zip(grads, tvars))` where
`grads, _ = tf.clip_by_global_norm(tf.gradients(cost, tvars), threshold)`,
i.e. the gradients of the cost with respect to all trainable variables,
clipped by global norm with the recorded threshold. -/
structure TrainOpDesc where
  clipGlobalNormThreshold : ℚ
  optimizer : OptKind
deriving DecidableEq

/-- The graph structure `PTBModel.__init__` creates. -/
structure PTBModelG where
  batch_size : ℕ
  num_steps : ℕ
  inputDropout : Option ℚ
  cellStack : List CellDesc
  initial_state : StateDesc
  unroll : List UnrollStep
  lr : Option ℚ
  train_op : Option TrainOpDesc
deriving DecidableEq

/-- Model of `PTBModel.__init__(is_training, config)` (lines 85-153).  In evaluation
mode the constructor returns before creating `self._lr` and
`self._train_op`. -/
def PTBModel_init (is_training : Bool) (c : Config) : PTBModelG :=
  let lstm_cell := CellDesc.basicLSTM c.hidden_size 0
  let lstm_cell :=
    if is_training = true ∧ c.keep_prob < 1 then
      CellDesc.dropoutWrap c.keep_prob lstm_cell
    else lstm_cell
  let cellStack := List.replicate c.num_layers lstm_cell
  let inputDropout :=
    if is_training = true ∧ c.keep_prob < 1 then some c.keep_prob else none
  let unroll := (List.range c.num_steps).map (fun t => UnrollStep.mk t (decide (0 < t)))
  let base : PTBModelG :=
    { batch_size := c.batch_size
      num_steps := c.num_steps
      inputDropout := inputDropout
      cellStack := cellStack
      initial_state := StateDesc.zeroState c.batch_size
      unroll := unroll
      lr := none
      train_op := none }
  if is_training = false then base
  else
    { base with
      lr := some 0
      train_op := some ⟨c.max_grad_norm, OptKind.gradientDescent⟩ }

/- Embedding of `generate` (ptb_word_lm.py lines 368-426).

`generate` restores the checkpoint, runs one warm-up `session.run` on input id
`0`, then samples 30 words.  The generation graph's `session.run` is the
oracle `mstep : S → ℤ → List (List ℚ) × S` (fed the current input word id and
the previous final state, it returns the fetched `probs` and `final_state`);
`np.random.choice(10002, p=probs[0])` is the oracle
`rand : ℕ → List ℚ → Fin 10002` indexed by the iteration number. -/

/-- The externally visible events of `generate`, in program order. -/
inductive GenEvent where
  | buildModel
  | openFile (path : String)
  | restoreCkpt (path : String)
  | sessRun (inputWord : ℤ)
deriving DecidableEq

/-- What `generate` produces: its event trace, the list `sentence`, and the
final `" ".join(sentence)` that is printed. -/
structure GenOut where
  events : List GenEvent
  sentence : List String
  printed : String
deriving DecidableEq

/-- The `for i in range(30)` sampling loop of `generate` (lines 396-422),
counting down the remaining iterations `k` while `i` counts up. -/
def genLoop {S : Type} (id_to_word : String → Option String)
    (mstep : S → ℤ → List (List ℚ) × S) (rand : ℕ → List ℚ → Fin 10002) :
    ℕ → ℕ → ℤ → S → List String → List GenEvent →
    Except PyErr (ℤ × S × List String × List GenEvent)
  | 0, _, nw, st, sent, evs => .ok (nw, st, sent, evs)
  | k + 1, i, nw, st, sent, evs => do
    let (probs, st') := mstep st nw
    let row ← (match probs.head? with
      | some r => Except.ok r
      | none => Except.error PyErr.indexError)
    let nwN : ℕ := (rand i row : ℕ)
    let w ← (match id_to_word (toString nwN) with
      | some w => Except.ok w
      | none => Except.error PyErr.keyError)
    genLoop id_to_word mstep rand k (i + 1) (nwN : ℤ) st'
      (sent ++ [w]) (evs ++ [GenEvent.sessRun nw])

/-- Model of `generate(word_to_id, id_to_word)` (lines 368-426). -/
def generate {S : Type} (fl : Flags) (word_to_id : String → Option ℤ)
    (id_to_word : String → Option String) (mstep : S → ℤ → List (List ℚ) × S)
    (initSt : S) (rand : ℕ → List ℚ → Fin 10002) : Except PyErr GenOut := do
  let _c ← get_config fl.model
  -- config.num_steps = 1; config.batch_size = 1; m = PTBModel(is_training=False, ...)
  let ckpt ← pyModelPath fl "ptb.ckpt"
  -- f = open(ckpt, "r"); m.saver.restore(session, ckpt)
  -- warm-up session.run with input_data = np.zeros((1, 1))
  let (_probs0, st0) := mstep initSt 0
  let bos ← (match word_to_id "<bos>" with
    | some v => Except.ok v
    | none => Except.error PyErr.keyError)
  let (_, _, sent, evs) ← genLoop id_to_word mstep rand 30 0 bos st0 []
    [GenEvent.buildModel, GenEvent.openFile ckpt, GenEvent.restoreCkpt ckpt,
     GenEvent.sessRun 0]
  pure ⟨evs, sent, String.intercalate " " sent⟩

/-- The word id fed into the model at iteration `i` of the sampling loop,
paired with the state fed alongside it: iteration `0` is fed the id of
`"<bos>"` and the warm-up run's final state, and iteration `i + 1` is fed the
id sampled at iteration `i` and that iteration's final state. -/
def genWord {S : Type} (mstep : S → ℤ → List (List ℚ) × S)
    (rand : ℕ → List ℚ → Fin 10002) (bos : ℤ) (st0 : S) : ℕ → ℤ × S
  | 0 => (bos, st0)
  | i + 1 =>
    let (nw, st) := genWord mstep rand bos st0 i
    let (probs, st') := mstep st nw
    (((rand i (probs.headD [])) : ℕ), st')

/-- The word id sampled at iteration `i`: `np.random.choice(10002, p=probs[0])`
applied to the probabilities the model returns for the word and state fed at
iteration `i`. -/
def genSampled {S : Type} (mstep : S → ℤ → List (List ℚ) × S)
    (rand : ℕ → List ℚ → Fin 10002) (bos : ℤ) (st0 : S) (i : ℕ) : ℕ :=
  let (nw, st) := genWord mstep rand bos st0 i
  (rand i ((mstep st nw).1.headD []) : ℕ)

/- Embedding of the vocabulary JSON round-trip (ptb_word_lm.py lines 318-321, 335-338, 417-422). -/

/-- Model of `json.dump` of an integer-keyed dictionary: JSON object keys are strings,
so each key `k` is serialized as `str(k)`. -/
def json_dump_intKeys (m : List (ℕ × String)) : List (String × String) :=
  m.map (fun kv => (toString kv.1, kv.2))

/-- Key lookup in a deserialized JSON object (first matching key). -/
def json_obj_lookup (d : List (String × String)) (k : String) : Option String :=
  (d.find? (fun kv => kv.1 == k)).map (fun kv => kv.2)

/-- Key lookup in the original integer-keyed dictionary. -/
def assoc_lookup (m : List (ℕ × String)) (k : ℕ) : Option String :=
  (m.find? (fun kv => kv.1 == k)).map (fun kv => kv.2)

@[simp] theorem exceptBindError {ε α β : Type} (e : ε) (f : α → Except ε β) :
    (Except.error e : Except ε α) >>= f = Except.error e := rfl

@[simp] theorem exceptBindOk {ε α β : Type} (a : α) (f : α → Except ε β) :
    (Except.ok a : Except ε α) >>= f = f a := rfl

@[simp] theorem exceptPureEq {ε α : Type} (a : α) :
    (pure a : Except ε α) = Except.ok a := rfl

theorem epochStep_shape {B S : Type} (m : SessModel S) (sess : S → B → StepOut S)
    (epochSize : ℤ) (verbose : Bool) (step : ℕ) (b : B) (costs : ℚ) (iters : ℕ)
    (st : S) :
    epochStep m sess epochSize verbose step b costs iters st =
      (verboseCheck epochSize verbose step (iters + m.num_steps) (sess st b).probs) >>=
        (fun _ => (lastRowArgmax (sess st b).probs) >>=
          (fun cw =>
            Except.ok (LoopCtl.brk ⟨costs + (sess st b).cost, iters + m.num_steps, some cw⟩))) :=
  rfl

theorem epochStep_cases {B S : Type} (m : SessModel S) (sess : S → B → StepOut S)
    (epochSize : ℤ) (verbose : Bool) (step : ℕ) (b : B) (costs : ℚ) (iters : ℕ)
    (st : S) :
    (∃ e, epochStep m sess epochSize verbose step b costs iters st = .error e) ∨
    (∃ out, epochStep m sess epochSize verbose step b costs iters st = .ok (LoopCtl.brk out)) := by
  rw [epochStep_shape]
  cases hv : verboseCheck epochSize verbose step (iters + m.num_steps) (sess st b).probs with
  | error e => exact Or.inl ⟨e, by simp⟩
  | ok u =>
    cases hl : lastRowArgmax (sess st b).probs with
    | error e => exact Or.inl ⟨e, by simp [hl]⟩
    | ok cw =>
      refine Or.inr ⟨⟨costs + (sess st b).cost, iters + m.num_steps, some cw⟩, ?_⟩
      simp [hl]

theorem runLoop_cons_single {B S : Type} (m : SessModel S) (sess : S → B → StepOut S)
    (epochSize : ℤ) (verbose : Bool) (step : ℕ) (b : B) (rest : List B)
    (costs : ℚ) (iters : ℕ) (st : S) (fcw : Option ℕ) :
    runLoop m sess epochSize verbose step (b :: rest) costs iters st fcw =
    runLoop m sess epochSize verbose step [b] costs iters st fcw := by
  rcases epochStep_cases m sess epochSize verbose step b costs iters st with ⟨e, he⟩ | ⟨out, ho⟩
  · simp [runLoop, he]
  · simp [runLoop, ho]

theorem run_epoch_cons {B S : Type} (m : SessModel S) (sess : S → B → StepOut S)
    (dataLen : ℕ) (b : B) (rest : List B) (verbose : Bool) :
    run_epoch m sess dataLen (b :: rest) verbose =
    run_epoch m sess dataLen [b] verbose := by
  unfold run_epoch
  cases hes : pyEpochSize dataLen m.batch_size m.num_steps with
  | error e => simp [hes]
  | ok es => simp [hes, runLoop_cons_single]

theorem pyEpochSize_ok (dataLen batchSize numSteps : ℕ)
    (hbs : batchSize ≠ 0) (hns : numSteps ≠ 0) :
    pyEpochSize dataLen batchSize numSteps =
      .ok (Int.fdiv (Int.fdiv (dataLen : ℤ) (batchSize : ℤ) - 1) (numSteps : ℤ)) := by
  simp [pyEpochSize, pyFloorDiv, hbs, hns]

theorem run_epoch_first_batch {B S : Type} (m : SessModel S) (sess : S → B → StepOut S)
    (dataLen : ℕ) (b : B) (rest : List B) (row : List ℚ)
    (hbs : m.batch_size ≠ 0) (hns : m.num_steps ≠ 0)
    (hrow : (sess m.initial_state b).probs.getLast? = some row) :
    run_epoch m sess dataLen (b :: rest) false =
      .ok ⟨(sess m.initial_state b).cost, m.num_steps, some (np_argmax row)⟩ := by
  unfold run_epoch
  rw [pyEpochSize_ok dataLen m.batch_size m.num_steps hbs hns]
  rw [exceptBindOk, runLoop, epochStep_shape]
  simp [verboseCheck, lastRowArgmax, hrow, hns, runLoop]

/-- C2: `run_epoch` processes at most one minibatch regardless of how many the
iterator yields (the result on `b :: rest` equals the result on `[b]` for
every verbose setting), and with the default `verbose=False` it returns
`costs` equal to the first minibatch's cost alone, `iters = m.num_steps`,
perplexity `np.exp(first cost / num_steps)`, and `final_chosen_word` equal to
the argmax of the last row of the first minibatch's probability matrix. -/
theorem C2_run_epoch_single_batch {B S : Type} (m : SessModel S) (sess : S → B → StepOut S)
    (dataLen : ℕ) (b : B) (rest : List B) (row : List ℚ)
    (hbs : m.batch_size ≠ 0) (hns : m.num_steps ≠ 0)
    (hrow : (sess m.initial_state b).probs.getLast? = some row) :
    (∀ verbose, run_epoch m sess dataLen (b :: rest) verbose =
        run_epoch m sess dataLen [b] verbose) ∧
    run_epoch m sess dataLen (b :: rest) false =
      .ok ⟨(sess m.initial_state b).cost, m.num_steps, some (np_argmax row)⟩ ∧
    run_epoch_ret m sess dataLen (b :: rest) false =
      .ok (np_exp ((sess m.initial_state b).cost / (m.num_steps : ℚ)),
           some (np_argmax row)) := by
  refine ⟨fun v => run_epoch_cons m sess dataLen b rest v,
    run_epoch_first_batch m sess dataLen b rest row hbs hns hrow, ?_⟩
  unfold run_epoch_ret
  rw [run_epoch_first_batch m sess dataLen b rest row hbs hns hrow]
  rfl

/-- C2 witness: the single-batch behaviour at a concrete model and session. -/
theorem C2_run_epoch_single_batch_witness :
    ((⟨1, 1, 0⟩ : SessModel ℕ).batch_size ≠ 0) ∧
    ((⟨1, 1, 0⟩ : SessModel ℕ).num_steps ≠ 0) ∧
    (((fun (s : ℕ) (_ : ℕ) => (⟨2, s, [[3, 5]]⟩ : StepOut ℕ))
        (⟨1, 1, 0⟩ : SessModel ℕ).initial_state 0).probs.getLast? = some [3, 5]) ∧
    ((∀ verbose,
        run_epoch (⟨1, 1, 0⟩ : SessModel ℕ) (fun s _ => ⟨2, s, [[3, 5]]⟩) 3 (0 :: [1]) verbose =
        run_epoch (⟨1, 1, 0⟩ : SessModel ℕ) (fun s _ => ⟨2, s, [[3, 5]]⟩) 3 [0] verbose) ∧
      run_epoch (⟨1, 1, 0⟩ : SessModel ℕ) (fun s _ => ⟨2, s, [[3, 5]]⟩) 3 (0 :: [1]) false =
        .ok ⟨((fun (s : ℕ) (_ : ℕ) => (⟨2, s, [[3, 5]]⟩ : StepOut ℕ)) 0 0).cost, 1,
             some (np_argmax [3, 5])⟩ ∧
      run_epoch_ret (⟨1, 1, 0⟩ : SessModel ℕ) (fun s _ => ⟨2, s, [[3, 5]]⟩) 3 (0 :: [1]) false =
        .ok (np_exp (((fun (s : ℕ) (_ : ℕ) => (⟨2, s, [[3, 5]]⟩ : StepOut ℕ)) 0 0).cost / ((1 : ℕ) : ℚ)),
             some (np_argmax [3, 5]))) :=
  ⟨by decide, by decide, rfl,
   C2_run_epoch_single_batch ⟨1, 1, 0⟩ (fun s _ => ⟨2, s, [[3, 5]]⟩) 3 0 [1] [3, 5]
     (by decide) (by decide) rfl⟩

/-- C10: with `verbose=True` the condition `step % (epoch_size // 10) == 10`
is evaluated on the first step, where
`epoch_size = ((len(data) // batch_size) - 1) // num_steps`; whenever
`epoch_size < 10` (with `epoch_size` nonnegative, as it is on any call whose
iterator yields a minibatch) the divisor `epoch_size // 10` is zero and
`run_epoch` raises `ZeroDivisionError`, so a verbose call returns normally
only when `epoch_size >= 10`. -/
theorem C10_verbose_division_by_zero {B S : Type} (m : SessModel S) (sess : S → B → StepOut S)
    (dataLen : ℕ) (b : B) (rest : List B) (e : ℤ)
    (hes : pyEpochSize dataLen m.batch_size m.num_steps = .ok e) (he0 : 0 ≤ e) :
    (e < 10 → run_epoch m sess dataLen (b :: rest) true = .error .zeroDivisionError) ∧
    (∀ r, run_epoch m sess dataLen (b :: rest) true = .ok r → 10 ≤ e) := by
  have hmain : e < 10 →
      run_epoch m sess dataLen (b :: rest) true = .error .zeroDivisionError := by
    intro hlt
    unfold run_epoch
    rw [hes, exceptBindOk, runLoop, epochStep_shape]
    have hdiv : Int.fdiv e 10 = 0 := by
      rw [Int.fdiv_eq_ediv e (by norm_num)]
      exact Int.ediv_eq_zero_of_lt he0 hlt
    simp [verboseCheck, pyMod, hdiv]
  refine ⟨hmain, fun r hr => ?_⟩
  by_contra hcon
  push_neg at hcon
  rw [hmain hcon] at hr
  simp at hr

/-- C10 witness: a verbose call with `epoch_size = 4` raises
`ZeroDivisionError`. -/
theorem C10_verbose_division_by_zero_witness :
    (pyEpochSize 5 (⟨1, 1, 0⟩ : SessModel ℕ).batch_size (⟨1, 1, 0⟩ : SessModel ℕ).num_steps =
      .ok 4) ∧ ((0 : ℤ) ≤ 4) ∧ ((4 : ℤ) < 10) ∧
    run_epoch (B := ℕ) (⟨1, 1, 0⟩ : SessModel ℕ) (fun s _ => ⟨2, s, [[1]]⟩) 5 (0 :: []) true =
      .error .zeroDivisionError :=
  ⟨rfl, by decide, by decide,
   (C10_verbose_division_by_zero (⟨1, 1, 0⟩ : SessModel ℕ) (fun s _ => ⟨2, s, [[1]]⟩) 5 0 [] 4 rfl
      (by decide)).1 (by decide)⟩

/-- C1: evaluation at a failing input.  The claim says `run_epoch` accumulates
the per-batch cost over all the minibatches of the data and returns the
perplexity `np.exp(costs / iters)` of the model on that data; because the loop
body ends in an unconditional `break`, on data yielding two minibatches with
per-batch costs `1` and `3` (`num_steps = 1`, `batch_size = 1`, three tokens),
`run_epoch` returns the accumulator pair `(1, 1)` of the first minibatch only,
while the claimed accumulation over the data is `(4, 2)`, and the two
resulting perplexities `exp 1` and `exp 2` differ. -/
theorem C1_run_epoch_ignores_later_batches :
    run_epoch (B := ℕ) (S := ℕ) ⟨1, 1, 0⟩
        (fun s b => ⟨if b = 0 then 1 else 3, s, [[1]]⟩) 3 [0, 1] false =
      .ok ⟨1, 1, some 0⟩ ∧
    run_epoch_claimed (B := ℕ) (S := ℕ) ⟨1, 1, 0⟩
        (fun s b => ⟨if b = 0 then 1 else 3, s, [[1]]⟩) [0, 1] = (4, 2) ∧
    np_exp ((1 : ℚ) / 1) ≠ np_exp ((4 : ℚ) / 2) := by
  refine ⟨?_, ?_, ?_⟩
  · have := run_epoch_first_batch (B := ℕ) (S := ℕ) ⟨1, 1, 0⟩
      (fun s b => ⟨if b = 0 then 1 else 3, s, [[1]]⟩) 3 0 [1] [1]
      (by decide) (by decide) rfl
    simpa [np_argmax] using this
  · norm_num [run_epoch_claimed]
  · simp only [np_exp, ne_eq, Real.exp_eq_exp]
    norm_num

/-- C3: `main` raises `ValueError` when neither `data_path` nor `generate` is
set, calls `train()` when `generate` is unset, and when `generate` is set
loads `word_to_id.json` and `id_to_word.json` from `model_path_prefix` and
calls `generate(word_to_id, id_to_word)`. -/
theorem C3_main_dispatch (fl : Flags) (p : String) (hp : fl.model_path_pfx = some p) :
    (truthyFlag fl.data_path = false → truthyFlag fl.generate_flag = false →
      ptb_main fl = .error .valueError) ∧
    (truthyFlag fl.generate_flag = false → truthyFlag fl.data_path = true →
      ptb_main fl = .ok .trainCall) ∧
    (truthyFlag fl.generate_flag = true →
      ptb_main fl = .ok (.generateCall (os_path_join p "word_to_id.json")
                                       (os_path_join p "id_to_word.json"))) := by
  refine ⟨fun h1 h2 => ?_, fun h1 h2 => ?_, fun h1 => ?_⟩
  · simp [ptb_main, h1, h2]
  · simp [ptb_main, h1, h2]
  · simp [ptb_main, pyModelPath, hp, h1]

/-- C3 witness: dispatch at a concrete set of flags with `generate` set. -/
theorem C3_main_dispatch_witness :
    ((⟨"small", none, some "1", some "mp"⟩ : Flags).model_path_pfx = some "mp") ∧
    (truthyFlag (⟨"small", none, some "1", some "mp"⟩ : Flags).generate_flag = true) ∧
    ptb_main ⟨"small", none, some "1", some "mp"⟩ =
      .ok (.generateCall (os_path_join "mp" "word_to_id.json")
                         (os_path_join "mp" "id_to_word.json")) :=
  ⟨rfl, by decide,
   (C3_main_dispatch ⟨"small", none, some "1", some "mp"⟩ "mp" rfl).2.2 (by decide)⟩

theorem PTBModel_init_cellStack (is_training : Bool) (c : Config) :
    (PTBModel_init is_training c).cellStack =
      List.replicate c.num_layers
        (if is_training = true ∧ c.keep_prob < 1 then
          CellDesc.dropoutWrap c.keep_prob (CellDesc.basicLSTM c.hidden_size 0)
        else CellDesc.basicLSTM c.hidden_size 0) := by
  by_cases h : is_training = true ∧ c.keep_prob < 1 <;>
    cases is_training <;> simp_all [PTBModel_init]

theorem PTBModel_init_unroll (is_training : Bool) (c : Config) :
    (PTBModel_init is_training c).unroll =
      (List.range c.num_steps).map (fun t => UnrollStep.mk t (decide (0 < t))) := by
  by_cases h : is_training = true ∧ c.keep_prob < 1 <;>
    cases is_training <;> simp_all [PTBModel_init]

theorem PTBModel_init_initial_state (is_training : Bool) (c : Config) :
    (PTBModel_init is_training c).initial_state = StateDesc.zeroState c.batch_size := by
  by_cases h : is_training = true ∧ c.keep_prob < 1 <;>
    cases is_training <;> simp_all [PTBModel_init]

/-- C6: with `is_training=True` the constructor creates the training op —
gradients of the cost with respect to the trainable variables, clipped by
global norm with threshold `config.max_grad_norm`, applied by a
gradient-descent optimizer — and the learning-rate variable (initialised to
`0.0`); with `is_training=False` it returns early and creates neither. -/
theorem C6_gradient_clipping_only_in_training (c : Config) :
    ((PTBModel_init true c).train_op = some ⟨c.max_grad_norm, OptKind.gradientDescent⟩ ∧
     (PTBModel_init true c).lr = some 0) ∧
    ((PTBModel_init false c).train_op = none ∧ (PTBModel_init false c).lr = none) := by
  by_cases h : c.keep_prob < 1 <;> simp [PTBModel_init, h]

/-- C9: the recurrent core stacks `num_layers` cells of `hidden_size` units
each, every cell is wrapped in dropout exactly when `is_training` holds and
`keep_prob < 1`, the stack starts from the zero state for `batch_size`, and it
is unrolled for exactly `num_steps` time steps with
`reuse_variables()` called at every time step after the first. -/
theorem C9_stacked_lstm_structure (is_training : Bool) (c : Config) :
    (PTBModel_init is_training c).cellStack.length = c.num_layers ∧
    (∀ cd ∈ (PTBModel_init is_training c).cellStack,
      cd.units = c.hidden_size ∧
      (cd.hasDropout = true ↔ (is_training = true ∧ c.keep_prob < 1))) ∧
    (PTBModel_init is_training c).initial_state = StateDesc.zeroState c.batch_size ∧
    (PTBModel_init is_training c).unroll.map (fun s => s.timeStep) = List.range c.num_steps ∧
    (∀ s ∈ (PTBModel_init is_training c).unroll, s.reuseVars = decide (0 < s.timeStep)) := by
  refine ⟨?_, ?_, PTBModel_init_initial_state is_training c, ?_, ?_⟩
  · rw [PTBModel_init_cellStack]; exact List.length_replicate _ _
  · intro cd hcd
    rw [PTBModel_init_cellStack] at hcd
    have hcd' := List.eq_of_mem_replicate hcd
    subst hcd'
    by_cases h : is_training = true ∧ c.keep_prob < 1
    · simp [h, CellDesc.units, CellDesc.hasDropout]
    · simp [h, CellDesc.units, CellDesc.hasDropout]
  · rw [PTBModel_init_unroll]
    simp [Function.comp_def]
  · intro s hs
    rw [PTBModel_init_unroll] at hs
    simp only [List.mem_map, List.mem_range] at hs
    obtain ⟨t, _, rfl⟩ := hs
    rfl

theorem foldl_append_flatMap {α β : Type} (f : α → List β) (l : List α) (init : List β) :
    l.foldl (fun acc a => acc ++ f a) init = init ++ l.flatMap f := by
  induction l generalizing init with
  | nil => simp
  | cons a t ih => simp [List.foldl_cons, ih, List.flatMap_cons]

theorem countP_flatMap_zero {α β : Type} (q : β → Bool) (f : α → List β) (l : List α)
    (h : ∀ a ∈ l, (f a).countP q = 0) : (l.flatMap f).countP q = 0 := by
  induction l with
  | nil => simp
  | cons a t ih =>
    simp only [List.flatMap_cons, List.countP_append]
    rw [h a (by simp), ih (fun x hx => h x (by simp [hx]))]

theorem countP_flatMap_one {α β : Type} (q : β → Bool) (f : α → List β) (l : List α)
    (h : ∀ a ∈ l, (f a).countP q = 1) : (l.flatMap f).countP q = l.length := by
  induction l with
  | nil => simp
  | cons a t ih =>
    simp only [List.flatMap_cons, List.countP_append, List.length_cons]
    rw [h a (by simp), ih (fun x hx => h x (by simp [hx]))]
    omega

theorem train_ok (fl : Flags) (c : Config) (p : String)
    (hc : get_config fl.model = .ok c) (hp : fl.model_path_pfx = some p) :
    train fl = .ok
      ([TrainEvent.loadData fl.data_path,
        TrainEvent.dumpJson (os_path_join p "word_to_id.json"),
        TrainEvent.dumpJson (os_path_join p "id_to_word.json")] ++
       (List.range c.max_max_epoch).flatMap (trainEpochBody c p) ++
       [TrainEvent.runEpochEv DatasetId.testD OpId.noOp false]) := by
  unfold train
  rw [hc]
  simp only [exceptBindOk, pyModelPath, hp]
  rw [foldl_append_flatMap]
  rfl

/-- C4: `train` first loads the PTB raw data, then (after dumping the two
vocabulary JSON files) runs `max_max_epoch` epoch blocks in order, where block
`i` assigns learning rate `learning_rate * lr_decay ^ max(i - max_epoch, 0)`,
runs a training epoch on the train data with the training op, runs an
evaluation epoch on the validation data with a no-op, and saves a checkpoint;
after all blocks it runs exactly one evaluation epoch on the test data, as the
final event of the trace. -/
theorem C4_train_epoch_order (fl : Flags) (c : Config) (p : String)
    (hc : get_config fl.model = .ok c) (hp : fl.model_path_pfx = some p) :
    train fl = .ok
      ([TrainEvent.loadData fl.data_path,
        TrainEvent.dumpJson (os_path_join p "word_to_id.json"),
        TrainEvent.dumpJson (os_path_join p "id_to_word.json")] ++
       (List.range c.max_max_epoch).flatMap (trainEpochBody c p) ++
       [TrainEvent.runEpochEv DatasetId.testD OpId.noOp false]) ∧
    (∀ i, trainEpochBody c p i =
      [TrainEvent.assignLR
         (c.learning_rate * c.lr_decay ^ (max ((i : ℤ) - (c.max_epoch : ℤ)) 0).toNat),
       TrainEvent.runEpochEv DatasetId.trainD OpId.trainOp true,
       TrainEvent.runEpochEv DatasetId.validD OpId.noOp false,
       TrainEvent.saveCheckpoint (os_path_join p "ptb.ckpt")]) ∧
    (([TrainEvent.loadData fl.data_path,
        TrainEvent.dumpJson (os_path_join p "word_to_id.json"),
        TrainEvent.dumpJson (os_path_join p "id_to_word.json")] ++
       (List.range c.max_max_epoch).flatMap (trainEpochBody c p) ++
       [TrainEvent.runEpochEv DatasetId.testD OpId.noOp false]).countP isTestEval = 1) ∧
    (([TrainEvent.loadData fl.data_path,
        TrainEvent.dumpJson (os_path_join p "word_to_id.json"),
        TrainEvent.dumpJson (os_path_join p "id_to_word.json")] ++
       (List.range c.max_max_epoch).flatMap (trainEpochBody c p) ++
       [TrainEvent.runEpochEv DatasetId.testD OpId.noOp false]).getLast? =
      some (TrainEvent.runEpochEv DatasetId.testD OpId.noOp false)) := by
  refine ⟨train_ok fl c p hc hp, fun i => rfl, ?_, ?_⟩
  · simp only [List.countP_append]
    rw [countP_flatMap_zero isTestEval (trainEpochBody c p) _ (fun a _ => rfl)]
    rfl
  · rw [List.getLast?_concat]

/-- C4 witness: the trace of `train` at concrete flags with the test config. -/
theorem C4_train_epoch_order_witness :
    (get_config (⟨"test", some "d", none, some "mp"⟩ : Flags).model = .ok testConfig) ∧
    ((⟨"test", some "d", none, some "mp"⟩ : Flags).model_path_pfx = some "mp") ∧
    (train ⟨"test", some "d", none, some "mp"⟩ = .ok
      ([TrainEvent.loadData (some "d"),
        TrainEvent.dumpJson (os_path_join "mp" "word_to_id.json"),
        TrainEvent.dumpJson (os_path_join "mp" "id_to_word.json")] ++
       (List.range testConfig.max_max_epoch).flatMap (trainEpochBody testConfig "mp") ++
       [TrainEvent.runEpochEv DatasetId.testD OpId.noOp false])) :=
  ⟨rfl, rfl,
   (C4_train_epoch_order ⟨"test", some "d", none, some "mp"⟩ testConfig "mp" rfl rfl).1⟩

theorem genLoop_spec {S : Type} (id_to_word : String → Option String)
    (mstep : S → ℤ → List (List ℚ) × S) (rand : ℕ → List ℚ → Fin 10002)
    (bos : ℤ) (st0 : S)
    (hrow : ∀ (s : S) (w : ℤ), (mstep s w).1 ≠ [])
    (hid : ∀ n : ℕ, n < 10002 → (id_to_word (toString n)).isSome = true) :
    ∀ (k i : ℕ) (sent : List String) (evs : List GenEvent),
    genLoop id_to_word mstep rand k i (genWord mstep rand bos st0 i).1
        (genWord mstep rand bos st0 i).2 sent evs =
      .ok ((genWord mstep rand bos st0 (i + k)).1,
           (genWord mstep rand bos st0 (i + k)).2,
           sent ++ (List.range' i k).map
             (fun j => (id_to_word (toString (genSampled mstep rand bos st0 j))).getD ""),
           evs ++ (List.range' i k).map
             (fun j => GenEvent.sessRun (genWord mstep rand bos st0 j).1)) := by
  intro k
  induction k with
  | zero => intro i sent evs; simp [genLoop]
  | succ k ih =>
    intro i sent evs
    rw [genLoop]
    cases hL : (mstep (genWord mstep rand bos st0 i).2 (genWord mstep rand bos st0 i).1).1 with
    | nil => exact absurd hL (hrow _ _)
    | cons r t =>
      obtain ⟨w, hw⟩ := Option.isSome_iff_exists.mp (hid (rand i r) (rand i r).isLt)
      have hgw : genWord mstep rand bos st0 (i + 1) =
          (((rand i r : ℕ) : ℤ),
           (mstep (genWord mstep rand bos st0 i).2 (genWord mstep rand bos st0 i).1).2) := by
        show (let (nw, st) := genWord mstep rand bos st0 i
              let (probs, st') := mstep st nw
              ((((rand i (probs.headD [])) : ℕ) : ℤ), st')) = _
        simp [hL]
      have hgs : genSampled mstep rand bos st0 i = (rand i r : ℕ) := by
        unfold genSampled
        simp [hL]
      simp only [hL, List.head?_cons, exceptBindOk, hw]
      have := ih (i + 1) (sent ++ [w]) (evs ++ [GenEvent.sessRun (genWord mstep rand bos st0 i).1])
      rw [hgw] at this
      rw [this]
      have harith : i + 1 + k = i + (k + 1) := by omega
      simp [harith, List.range'_succ, hgs, hw, List.append_assoc]

theorem generate_ok {S : Type} (fl : Flags) (c : Config) (p : String)
    (word_to_id : String → Option ℤ) (id_to_word : String → Option String)
    (mstep : S → ℤ → List (List ℚ) × S) (initSt : S) (rand : ℕ → List ℚ → Fin 10002)
    (bos : ℤ)
    (hc : get_config fl.model = .ok c) (hp : fl.model_path_pfx = some p)
    (hbos : word_to_id "<bos>" = some bos)
    (hrow : ∀ (s : S) (w : ℤ), (mstep s w).1 ≠ [])
    (hid : ∀ n : ℕ, n < 10002 → (id_to_word (toString n)).isSome = true) :
    generate fl word_to_id id_to_word mstep initSt rand =
      .ok ⟨[GenEvent.buildModel, GenEvent.openFile (os_path_join p "ptb.ckpt"),
            GenEvent.restoreCkpt (os_path_join p "ptb.ckpt"), GenEvent.sessRun 0] ++
           (List.range 30).map (fun j =>
             GenEvent.sessRun (genWord mstep rand bos (mstep initSt 0).2 j).1),
           (List.range 30).map (fun j =>
             (id_to_word (toString (genSampled mstep rand bos (mstep initSt 0).2 j))).getD ""),
           String.intercalate " " ((List.range 30).map (fun j =>
             (id_to_word (toString (genSampled mstep rand bos (mstep initSt 0).2 j))).getD ""))⟩ := by
  unfold generate
  rw [hc]
  simp only [exceptBindOk, pyModelPath, hp, hbos]
  have h30 := genLoop_spec id_to_word mstep rand bos (mstep initSt 0).2 hrow hid 30 0 []
    [GenEvent.buildModel, GenEvent.openFile (os_path_join p "ptb.ckpt"),
     GenEvent.restoreCkpt (os_path_join p "ptb.ckpt"), GenEvent.sessRun 0]
  rw [show genWord mstep rand bos (mstep initSt 0).2 0 = (bos, (mstep initSt 0).2) from rfl] at h30
  rw [h30]
  simp [List.range_eq_range']

/-- C5: after restoring the checkpoint, `generate` produces exactly 30 words:
it starts from the id of `"<bos>"` taken from `word_to_id` (fed together with
the warm-up run's final state), at each of the 30 iterations feeds the current
word id and the previous final state into the model, samples the next id from
the model's probability vector over the 10002 ids, appends the decoded word
`id_to_word[str(next_word)]`, and finally prints the 30 words joined by
spaces. -/
theorem C5_generate_samples_thirty_words {S : Type} (fl : Flags) (c : Config) (p : String)
    (word_to_id : String → Option ℤ) (id_to_word : String → Option String)
    (mstep : S → ℤ → List (List ℚ) × S) (initSt : S) (rand : ℕ → List ℚ → Fin 10002)
    (bos : ℤ)
    (hc : get_config fl.model = .ok c) (hp : fl.model_path_pfx = some p)
    (hbos : word_to_id "<bos>" = some bos)
    (hrow : ∀ (s : S) (w : ℤ), (mstep s w).1 ≠ [])
    (hid : ∀ n : ℕ, n < 10002 → (id_to_word (toString n)).isSome = true) :
    ∃ out, generate fl word_to_id id_to_word mstep initSt rand = .ok out ∧
      out.sentence.length = 30 ∧
      genWord mstep rand bos (mstep initSt 0).2 0 = (bos, (mstep initSt 0).2) ∧
      (∀ j, j < 30 → out.sentence[j]? =
        id_to_word (toString (genSampled mstep rand bos (mstep initSt 0).2 j))) ∧
      (∀ j, genSampled mstep rand bos (mstep initSt 0).2 j < 10002) ∧
      out.events = [GenEvent.buildModel, GenEvent.openFile (os_path_join p "ptb.ckpt"),
            GenEvent.restoreCkpt (os_path_join p "ptb.ckpt"), GenEvent.sessRun 0] ++
          (List.range 30).map (fun j =>
            GenEvent.sessRun (genWord mstep rand bos (mstep initSt 0).2 j).1) ∧
      out.printed = String.intercalate " " out.sentence := by
  refine ⟨_, generate_ok fl c p word_to_id id_to_word mstep initSt rand bos
    hc hp hbos hrow hid, by simp, rfl, ?_, ?_, rfl, rfl⟩
  · intro j hj
    obtain ⟨w, hw⟩ := Option.isSome_iff_exists.mp
      (hid (genSampled mstep rand bos (mstep initSt 0).2 j)
        (by unfold genSampled; exact (rand j _).isLt))
    simp only [List.getElem?_map, List.getElem?_range, hj, if_pos]
    simp [hw]
  · intro j
    unfold genSampled
    exact (rand j _).isLt

/-- C5 witness: `generate` at concrete oracles produces 30 words and prints
them joined by spaces. -/
theorem C5_generate_samples_thirty_words_witness :
    (get_config (⟨"test", none, some "1", some "mp"⟩ : Flags).model = .ok testConfig) ∧
    ((⟨"test", none, some "1", some "mp"⟩ : Flags).model_path_pfx = some "mp") ∧
    ((fun s => if s = "<bos>" then some (7 : ℤ) else none) "<bos>" = some 7) ∧
    (∃ out, generate (S := ℕ) ⟨"test", none, some "1", some "mp"⟩
        (fun s => if s = "<bos>" then some 7 else none) (fun _ => some "w")
        (fun st _ => ([[1]], st + 1)) 0
        (fun i _ => ⟨i % 10002, Nat.mod_lt i (by norm_num)⟩) = .ok out ∧
      out.sentence.length = 30 ∧
      out.printed = String.intercalate " " out.sentence) :=
  ⟨rfl, rfl, rfl, by
    obtain ⟨out, h1, h2, _, _, _, _, h7⟩ :=
      C5_generate_samples_thirty_words (S := ℕ) ⟨"test", none, some "1", some "mp"⟩ testConfig "mp"
        (fun s => if s = "<bos>" then some 7 else none) (fun _ => some "w")
        (fun st _ => ([[1]], st + 1)) 0
        (fun i _ => ⟨i % 10002, Nat.mod_lt i (by norm_num)⟩) 7
        rfl rfl rfl (fun _ _ => by simp) (fun n _ => rfl)
    exact ⟨out, h1, h2, h7⟩⟩

/-- C7: every checkpoint save performed by `train` writes to
`os.path.join(model_path_prefix, "ptb.ckpt")` and there is one save per
training epoch (`max_max_epoch` in total); `generate` restores from exactly
that path (event index 2 of its trace) before any `session.run` sampling step
(all of which sit at indices at least 3). -/
theorem C7_checkpoint_save_restore_same_path {S : Type} (fl : Flags) (c : Config) (p : String)
    (word_to_id : String → Option ℤ) (id_to_word : String → Option String)
    (mstep : S → ℤ → List (List ℚ) × S) (initSt : S) (rand : ℕ → List ℚ → Fin 10002)
    (bos : ℤ)
    (hc : get_config fl.model = .ok c) (hp : fl.model_path_pfx = some p)
    (hbos : word_to_id "<bos>" = some bos)
    (hrow : ∀ (s : S) (w : ℤ), (mstep s w).1 ≠ [])
    (hid : ∀ n : ℕ, n < 10002 → (id_to_word (toString n)).isSome = true) :
    (∀ evs, train fl = .ok evs →
      (∀ e ∈ evs, isSaveCkpt e = true →
        e = TrainEvent.saveCheckpoint (os_path_join p "ptb.ckpt")) ∧
      evs.countP isSaveCkpt = c.max_max_epoch) ∧
    (∃ out, generate fl word_to_id id_to_word mstep initSt rand = .ok out ∧
      out.events[2]? = some (GenEvent.restoreCkpt (os_path_join p "ptb.ckpt")) ∧
      (∀ j w, out.events[j]? = some (GenEvent.sessRun w) → 3 ≤ j)) := by
  constructor
  · intro evs hevs
    rw [train_ok fl c p hc hp, Except.ok.injEq] at hevs
    subst hevs
    constructor
    · intro e he hsave
      simp only [List.mem_append, List.mem_cons, List.mem_singleton] at he
      rcases he with ((rfl | rfl | rfl | h) | hf) | (rfl | h)
      · simp [isSaveCkpt] at hsave
      · simp [isSaveCkpt] at hsave
      · simp [isSaveCkpt] at hsave
      · simp at h
      · obtain ⟨i, _, hei⟩ := List.mem_flatMap.mp hf
        simp only [trainEpochBody, List.mem_cons, List.mem_singleton] at hei
        rcases hei with rfl | rfl | rfl | rfl | h
        · simp [isSaveCkpt] at hsave
        · simp [isSaveCkpt] at hsave
        · simp [isSaveCkpt] at hsave
        · rfl
        · simp at h
      · simp [isSaveCkpt] at hsave
      · simp at h
    · simp only [List.countP_append]
      rw [countP_flatMap_one isSaveCkpt (trainEpochBody c p) _ (fun a _ => rfl)]
      simp [List.countP_cons, List.countP_nil, isSaveCkpt]
  · refine ⟨_, generate_ok fl c p word_to_id id_to_word mstep initSt rand bos
      hc hp hbos hrow hid, rfl, ?_⟩
    intro j w hj
    by_contra hcon
    push_neg at hcon
    interval_cases j <;> simp_all

theorem json_roundtrip (m : List (ℕ × String))
    (hinj : ∀ a ∈ m, ∀ b ∈ m, toString a.1 = toString b.1 → a.1 = b.1) :
    ∀ k v, assoc_lookup m k = some v →
      json_obj_lookup (json_dump_intKeys m) (toString k) = some v := by
  induction m with
  | nil => intro k v h; simp [assoc_lookup] at h
  | cons kv t ih =>
    intro k v h
    by_cases hk : kv.1 = k
    · rw [assoc_lookup, List.find?_cons_of_pos _ (by simp [hk])] at h
      simp only [Option.map_some'] at h
      rw [json_obj_lookup, json_dump_intKeys, List.map_cons,
        List.find?_cons_of_pos _ (by simp [hk])]
      simpa using h
    · rw [assoc_lookup, List.find?_cons_of_neg _ (by simp [hk])] at h
      have ht : assoc_lookup t k = some v := h
      obtain ⟨e, he, hek⟩ : ∃ e ∈ t, e.1 = k := by
        rcases hfind : t.find? (fun kv => kv.1 == k) with _ | e
        · rw [assoc_lookup, hfind] at ht; simp at ht
        · exact ⟨e, List.mem_of_find?_eq_some hfind,
            by simpa using List.find?_some hfind⟩
      have hne : ¬ (toString kv.1 = toString k) := by
        intro hts
        have hke : kv.1 = e.1 := hinj kv (by simp) e (by simp [he]) (by rw [hts, hek])
        exact hk (hke.trans hek)
      rw [json_obj_lookup, json_dump_intKeys, List.map_cons,
        List.find?_cons_of_neg _ (by simpa using hne)]
      exact ih (fun a ha b hb => hinj a (by simp [ha]) b (by simp [hb])) k v ht

/-- C7 witness: save and restore paths at concrete flags and oracles. -/
theorem C7_checkpoint_save_restore_same_path_witness :
    (get_config (⟨"test", none, some "1", some "mp"⟩ : Flags).model = .ok testConfig) ∧
    ((⟨"test", none, some "1", some "mp"⟩ : Flags).model_path_pfx = some "mp") ∧
    ((fun s => if s = "<bos>" then some (7 : ℤ) else none) "<bos>" = some 7) ∧
    (∀ evs, train ⟨"test", none, some "1", some "mp"⟩ = .ok evs →
      (∀ e ∈ evs, isSaveCkpt e = true →
        e = TrainEvent.saveCheckpoint (os_path_join "mp" "ptb.ckpt")) ∧
      evs.countP isSaveCkpt = testConfig.max_max_epoch) ∧
    (∃ out, generate (S := ℕ) ⟨"test", none, some "1", some "mp"⟩
        (fun s => if s = "<bos>" then some 7 else none) (fun _ => some "w")
        (fun st _ => ([[1]], st + 1)) 0
        (fun i _ => ⟨i % 10002, Nat.mod_lt i (by norm_num)⟩) = .ok out ∧
      out.events[2]? = some (GenEvent.restoreCkpt (os_path_join "mp" "ptb.ckpt")) ∧
      (∀ j w, out.events[j]? = some (GenEvent.sessRun w) → 3 ≤ j)) := by
  have h := C7_checkpoint_save_restore_same_path (S := ℕ) ⟨"test", none, some "1", some "mp"⟩ testConfig "mp"
    (fun s => if s = "<bos>" then some 7 else none) (fun _ => some "w")
    (fun st _ => ([[1]], st + 1)) 0
    (fun i _ => ⟨i % 10002, Nat.mod_lt i (by norm_num)⟩) 7
    rfl rfl rfl (fun _ _ => by simp) (fun n _ => rfl)
  exact ⟨rfl, rfl, rfl, h.1, h.2⟩

/-- C8: `train` dumps the vocabulary to `word_to_id.json` and
`id_to_word.json` under `model_path_prefix` (trace events 1 and 2), `main` in
generate mode loads the same two paths, and—because JSON serialization turns
the integer keys of `id_to_word` into strings—looking up the serialized object
with the string key `str(k)` returns exactly the word the training-time map
associated with the integer key `k`. -/
theorem C8_vocab_json_roundtrip (fl : Flags) (c : Config) (p : String) (m : List (ℕ × String))
    (hc : get_config fl.model = .ok c) (hp : fl.model_path_pfx = some p)
    (hinj : ∀ a ∈ m, ∀ b ∈ m, toString a.1 = toString b.1 → a.1 = b.1) :
    (∀ evs, train fl = .ok evs →
      evs[1]? = some (TrainEvent.dumpJson (os_path_join p "word_to_id.json")) ∧
      evs[2]? = some (TrainEvent.dumpJson (os_path_join p "id_to_word.json"))) ∧
    (truthyFlag fl.generate_flag = true →
      ptb_main fl = .ok (MainAction.generateCall (os_path_join p "word_to_id.json")
                                                 (os_path_join p "id_to_word.json"))) ∧
    (∀ k v, assoc_lookup m k = some v →
      json_obj_lookup (json_dump_intKeys m) (toString k) = some v) := by
  refine ⟨?_, ?_, json_roundtrip m hinj⟩
  · intro evs hevs
    rw [train_ok fl c p hc hp, Except.ok.injEq] at hevs
    subst hevs
    exact ⟨by simp, by simp⟩
  · intro hgen
    simp [ptb_main, pyModelPath, hp, hgen]

/-- C8 witness: paths and JSON round-trip at a concrete two-entry vocabulary. -/
theorem C8_vocab_json_roundtrip_witness :
    (get_config (⟨"small", none, some "1", some "mp"⟩ : Flags).model = .ok smallConfig) ∧
    ((⟨"small", none, some "1", some "mp"⟩ : Flags).model_path_pfx = some "mp") ∧
    (∀ a ∈ [((0 : ℕ), "a"), (1, "b")], ∀ b ∈ [((0 : ℕ), "a"), (1, "b")],
      toString a.1 = toString b.1 → a.1 = b.1) ∧
    (assoc_lookup [((0 : ℕ), "a"), (1, "b")] 1 = some "b") ∧
    (truthyFlag (⟨"small", none, some "1", some "mp"⟩ : Flags).generate_flag = true) ∧
    ptb_main ⟨"small", none, some "1", some "mp"⟩ =
      .ok (MainAction.generateCall (os_path_join "mp" "word_to_id.json")
                                   (os_path_join "mp" "id_to_word.json")) ∧
    json_obj_lookup (json_dump_intKeys [((0 : ℕ), "a"), (1, "b")]) (toString 1) = some "b" := by
  have h := C8_vocab_json_roundtrip ⟨"small", none, some "1", some "mp"⟩ smallConfig "mp"
    [((0 : ℕ), "a"), (1, "b")] rfl rfl (by decide)
  exact ⟨rfl, rfl, by decide, by decide, by decide, h.2.1 (by decide),
    h.2.2 1 "b" (by decide)⟩
